import Mathlib

/-!
# KŌBRA slither game server — verification of spec claims

Shallow embedding of the server-authoritative game engine
(`src/unnamed/part_004`, the match engine) and of the socket server's
forfeit handler (`src/unnamed/part_003`).

Modelling conventions:
* JS `number` is modelled by `ℚ` where the code only performs field
  arithmetic and comparisons (lengths, scores, times, rng outputs), and by
  `ℝ` where the code uses trigonometry (headings, movement).
* The code compares `Math.sqrt(dx*dx+dy*dy) < r` with `r > 0`; we model this
  by the equivalent `dx*dx+dy*dy < r*r` so distances stay rational.
* Object identity of snakes (JS `===`, `Map<Snake,_>`) is modelled by the
  snake's index in the `allSnakes` list.
* `Math.random()` and `Date.now()` — the two wall-clock-dependent inputs of
  the engine — are passed in explicitly as parameters (`entropy`, `now`).
-/

-- ════════════════════════════════════════════════════════
--  Seeded RNG  (engine: class SeededRandom)
-- ════════════════════════════════════════════════════════

/-- `class SeededRandom { next() { seed = (seed*9301+49297) % 233280; return seed/233280 } }` -/
structure SeededRandom where
  seed : ℕ
deriving DecidableEq, Repr

/-- One step of the linear-congruential generator: returns the value in
`[0,1)` and the advanced generator. -/
def SeededRandom.next (r : SeededRandom) : ℚ × SeededRandom :=
  let s := (r.seed * 9301 + 49297) % 233280
  ((s : ℚ) / 233280, ⟨s⟩)

/-- The rng output is nonnegative. -/
theorem SeededRandom.next_nonneg (r : SeededRandom) : 0 ≤ r.next.1 := by
  unfold SeededRandom.next
  positivity

/-- The rng output is below 1. -/
theorem SeededRandom.next_lt_one (r : SeededRandom) : r.next.1 < 1 := by
  unfold SeededRandom.next
  rw [div_lt_one (by norm_num)]
  exact_mod_cast Nat.mod_lt _ (by norm_num)

-- ════════════════════════════════════════════════════════
--  Entity model  (types.ts)
-- ════════════════════════════════════════════════════════

/-- `SNAKE_COLORS = ['red','blue','green','purple','yellow','orange']` -/
inductive SnakeColor where
  | red | blue | green | purple | yellow | orange
deriving DecidableEq, Repr

def SNAKE_COLORS : List SnakeColor :=
  [.red, .blue, .green, .purple, .yellow, .orange]

/-- `randomColor()`: `SNAKE_COLORS[Math.floor(rng.next() * SNAKE_COLORS.length)]`,
applied to one rng output `r`. -/
def randomColor (r : ℚ) : SnakeColor :=
  SNAKE_COLORS.getD (⌊r * 6⌋).toNat .red

/-- `interface Snake` (types.ts).  Positions and angles carry the scalar type
`α` (`ℚ` for the collision/score layer, `ℝ` for the trigonometric layer);
the purely arithmetical fields stay rational. -/
structure Snake (α : Type) where
  address : String
  segments : List (α × α)
  direction : α
  targetDirection : α
  length : ℚ
  speed : ℚ
  alive : Bool
  respawnTime : ℚ
  graceTime : ℚ
  boostTime : ℚ
  score : ℚ
  kills : ℕ
  color : SnakeColor

deriving instance DecidableEq for Snake
deriving instance Repr for Snake

/-- `interface Orb` (types.ts). -/
structure Orb (α : Type) where
  id : String
  x : α
  y : α
  size : ℕ
  value : ℚ
  color : SnakeColor

deriving instance DecidableEq for Orb
deriving instance Repr for Orb

/-- `interface GameState` (types.ts). -/
structure GameState (α : Type) where
  player1 : Snake α
  player2 : Snake α
  aiSnakes : List (Snake α)
  orbs : List (Orb α)
  gameTime : ℚ
  matchEnded : Bool
  winner : Option String
  tick : ℕ
  lastOrbSpawn : ℚ
  arenaWidth : ℚ
  arenaHeight : ℚ

deriving instance DecidableEq for GameState

-- ════════════════════════════════════════════════════════
--  startBoost  (engine lines 186–191)
-- ════════════════════════════════════════════════════════

/-- `startBoost(snake)`:
```
if (snake.boostTime > 0 || snake.length < 20) return
const cost = Math.max(5, snake.length * BOOST_LENGTH_COST)   // 0.05
snake.length -= cost
snake.boostTime = BOOST_DURATION_MS                          // 500
``` -/
def startBoost {α : Type} (s : Snake α) : Snake α :=
  if s.boostTime > 0 ∨ s.length < 20 then s
  else
    let cost := max 5 (s.length * (5 / 100))
    { s with length := s.length - cost, boostTime := 500 }

-- ════════════════════════════════════════════════════════
--  determineWinner  (engine lines 516–526)
-- ════════════════════════════════════════════════════════

/-- `determineWinner(state)`:
```
const p1Len = state.player1.alive ? state.player1.length : 0
const p2Len = state.player2.alive ? state.player2.length : 0
if (p1Len > p2Len) return state.player1.address
if (p2Len > p1Len) return state.player2.address
if (state.player1.score > state.player2.score) return state.player1.address
if (state.player2.score > state.player1.score) return state.player2.address
if (state.player1.kills > state.player2.kills) return state.player1.address
if (state.player2.kills > state.player1.kills) return state.player2.address
return null
``` -/
def determineWinner {α : Type} (st : GameState α) : Option String :=
  let p1Len := if st.player1.alive then st.player1.length else 0
  let p2Len := if st.player2.alive then st.player2.length else 0
  if p1Len > p2Len then some st.player1.address
  else if p2Len > p1Len then some st.player2.address
  else if st.player1.score > st.player2.score then some st.player1.address
  else if st.player2.score > st.player1.score then some st.player2.address
  else if st.player1.kills > st.player2.kills then some st.player1.address
  else if st.player2.kills > st.player1.kills then some st.player2.address
  else none

-- ════════════════════════════════════════════════════════
--  Segment-count reconciliation  (engine lines 294–311, end of updateSnake)
-- ════════════════════════════════════════════════════════

/-- The grow loop `while (snake.segments.length < targetSegments) push(...)`
acting on the segment count: each iteration appends exactly one segment. -/
def growLoop (n : ℕ) (target : ℤ) : ℕ :=
  if n < target then growLoop (n + 1) target else n
termination_by (target - n).toNat
decreasing_by omega

/-- `const targetSegments = Math.floor(snake.length / SEGMENT_SIZE)` with
`SEGMENT_SIZE = 8`. -/
def targetSegments (length : ℚ) : ℤ := ⌊length / 8⌋

/-- Grow/trim block of `updateSnake`, as its effect on the segment count:
```
const targetSegments = Math.floor(snake.length / SEGMENT_SIZE)
while (snake.segments.length < targetSegments) { ...push one segment... }
if (snake.segments.length > targetSegments + 2) {
  snake.segments.length = targetSegments + 1
}
```  -/
def reconcileSegments (length : ℚ) (n : ℕ) : ℕ :=
  let target := targetSegments length
  let grown := growLoop n target
  if (grown : ℤ) > target + 2 then (target + 1).toNat else grown

theorem growLoop_eq_max (n : ℕ) (target : ℤ) :
    (growLoop n target : ℤ) = max (n : ℤ) target := by
  generalize hk : (target - (n : ℤ)).toNat = k
  induction k generalizing n with
  | zero =>
    rw [growLoop, if_neg (by omega)]
    omega
  | succ k ih =>
    have h : (n : ℤ) < target := by omega
    rw [growLoop, if_pos h, ih (n + 1) (by omega)]
    omega

-- ════════════════════════════════════════════════════════
--  Collision & Death Resolver  (engine lines 386–469)
-- ════════════════════════════════════════════════════════

/-- Squared Euclidean distance.  Used to model the source's
`Math.sqrt(dx*dx+dy*dy) < r` tests as `dist2 < r*r` (equivalent for `r > 0`). -/
def dist2 (p q : ℚ × ℚ) : ℚ :=
  (p.1 - q.1) * (p.1 - q.1) + (p.2 - q.2) * (p.2 - q.2)

/-- `snake.segments[0]`.  Only read under a `segments.length === 0` guard in
the source, so the default is never observable. -/
def headPos (s : Snake ℚ) : ℚ × ℚ := s.segments.headD (0, 0)

/-- Per-entity skip condition of the collision scan:
`!s.alive || s.graceTime > 0 || s.segments.length === 0` (negated). -/
def eligible (s : Snake ℚ) : Prop :=
  s.alive = true ∧ ¬s.graceTime > 0 ∧ s.segments ≠ []

instance (s : Snake ℚ) : Decidable (eligible s) := by
  unfold eligible; infer_instance

/-- Head-to-body loop
`for (let i = 3; i < defender.segments.length; i++) { if (dist < 12) ... break }`:
its single effect fires iff some segment with index ≥ 3 is within radius 12
of the attacker's head. -/
def bodyHit (head : ℚ × ℚ) (segs : List (ℚ × ℚ)) : Bool :=
  (segs.drop 3).any (fun seg => dist2 head seg < 144)

/-- Accumulator of the pairwise scan: the `toKill` list (snake indices, in
insertion order) and the `killers` map (association list, set-once). -/
abbrev ScanState := List ℕ × List (ℕ × ℕ)

/-- `if (!toKill.includes(x)) toKill.push(x)`. -/
def pushNew (x : ℕ) (l : List ℕ) : List ℕ := if x ∈ l then l else l ++ [x]

/-- Body of the inner (defender) loop of `checkSnakeCollisions`, for attacker
index `a` with head `h`, against defender `(d, dfn)`:
```
if (defender === attacker || !defender.alive || defender.graceTime > 0
    || defender.segments.length === 0) continue
const hDx = ..., hDy = ...
if (sqrt(hDx²+hDy²) > MAX_CHECK_DISTANCE) continue        // 500
if (sqrt(hDx²+hDy²) < 15) { push attacker; push defender; continue }
for (i = 3; ...) if (dist < 12) { if (!toKill.includes(attacker)) {
  toKill.push(attacker); killers.set(attacker, defender) } break }
``` -/
def scanDefender (a : ℕ) (h : ℚ × ℚ) (st : ScanState) (d : ℕ) (dfn : Snake ℚ) :
    ScanState :=
  if d = a ∨ ¬eligible dfn then st
  else
    let hd2 := dist2 (headPos dfn) h
    if hd2 > 500 * 500 then st
    else if hd2 < 15 * 15 then
      (pushNew d (pushNew a st.1), st.2)
    else if bodyHit h dfn.segments then
      if a ∈ st.1 then st else (st.1 ++ [a], st.2 ++ [(a, d)])
    else st

/-- Body of the outer (attacker) loop of `checkSnakeCollisions`. -/
def scanAttacker (snakes : List (Snake ℚ)) (st : ScanState) (a : ℕ)
    (atk : Snake ℚ) : ScanState :=
  if ¬eligible atk then st
  else
    snakes.enum.foldl (fun st p => scanDefender a (headPos atk) st p.1 p.2) st

/-- Phase 1 of `checkSnakeCollisions`: the full pairwise scan producing
`toKill` and `killers`. -/
def collisionScan (snakes : List (Snake ℚ)) : ScanState :=
  snakes.enum.foldl (fun st p => scanAttacker snakes st p.1 p.2) ([], [])

/-- In-place field update of the snake at index `i` (JS mutates the shared
object; we rebuild the list). -/
def modifyIdx {α : Type} (f : α → α) : ℕ → List α → List α
  | _, [] => []
  | 0, x :: xs => f x :: xs
  | n + 1, x :: xs => x :: modifyIdx f n xs

/-- Segment-orb loop of `convertSnakeToOrbs`:
```
for (let i = 1; i < snake.segments.length; i += step) {
  orbs.push({ id: `death_addr_i_now`, x: seg.x + (rng.next()-0.5)*10,
              y: seg.y + (rng.next()-0.5)*10, size: 2, value: 6, color })
}
```
`step ≥ 1` is guaranteed by the caller's `Math.max(1, ...)`. -/
def deathOrbLoop (s : Snake ℚ) (now : ℕ) (step : ℕ) (hstep : 1 ≤ step)
    (i : ℕ) (rng : SeededRandom) : List (Orb ℚ) × SeededRandom :=
  if h : i < s.segments.length then
    let (r1, rng1) := rng.next
    let (r2, rng2) := rng1.next
    let seg := s.segments.get ⟨i, h⟩
    let orb : Orb ℚ :=
      { id := "death_" ++ s.address ++ "_" ++ toString i ++ "_" ++ toString now
        x := seg.1 + (r1 - 1/2) * 10
        y := seg.2 + (r2 - 1/2) * 10
        size := 2, value := 6, color := s.color }
    let rest := deathOrbLoop s now step hstep (i + step) rng2
    (orb :: rest.1, rest.2)
  else ([], rng)
termination_by s.segments.length - i
decreasing_by omega

/-- `convertSnakeToOrbs(snake)` (engine lines 444–469).  `now` models the
`Date.now()` calls (id strings only). -/
def convertSnakeToOrbs (s : Snake ℚ) (rng : SeededRandom) (now : ℕ) :
    List (Orb ℚ) × SeededRandom :=
  if s.segments = [] then ([], rng)
  else
    let head := headPos s
    let headOrb : Orb ℚ :=
      { id := "death_" ++ s.address ++ "_head_" ++ toString now
        x := head.1, y := head.2, size := 3, value := 9, color := s.color }
    let step := max 1 (s.segments.length / 20)
    let rest := deathOrbLoop s now step (le_max_left 1 _) 1 rng
    (headOrb :: rest.1, rest.2)

/-- One iteration of the death-resolution loop (`for (const dead of toKill)`):
```
const deathOrbs = convertSnakeToOrbs(dead); state.orbs.push(...deathOrbs)
const killer = killers.get(dead)
if (killer) { killer.kills++; killer.length += Math.floor(dead.length * 0.15) }
dead.alive = false; dead.respawnTime = state.gameTime + 2000
dead.boostTime = 0; dead.segments = []
``` -/
def resolveDeath (killers : List (ℕ × ℕ)) (gameTime : ℚ) (now : ℕ)
    (acc : List (Snake ℚ) × List (Orb ℚ) × SeededRandom) (deadIdx : ℕ) :
    List (Snake ℚ) × List (Orb ℚ) × SeededRandom :=
  match acc.1[deadIdx]? with
  | none => acc
  | some dead =>
    let conv := convertSnakeToOrbs dead acc.2.2 now
    let orbs' := acc.2.1 ++ conv.1
    let snakes' :=
      match killers.lookup deadIdx with
      | some k =>
        modifyIdx (fun s => { s with
          kills := s.kills + 1
          length := s.length + (⌊dead.length * (15 / 100)⌋ : ℤ) }) k acc.1
      | none => acc.1
    let snakes'' := modifyIdx (fun s => { s with
      alive := false, respawnTime := gameTime + 2000,
      boostTime := 0, segments := [] }) deadIdx snakes'
    (snakes'', orbs', conv.2)

/-- `checkSnakeCollisions(state, allSnakes)` (engine lines 386–441): the full
pairwise scan followed by death resolution.  Takes and returns the pieces of
the state it touches: the snake list, the orb list and the rng. -/
def checkSnakeCollisions (snakes : List (Snake ℚ)) (orbs : List (Orb ℚ))
    (gameTime : ℚ) (rng : SeededRandom) (now : ℕ) :
    List (Snake ℚ) × List (Orb ℚ) × SeededRandom :=
  let scan := collisionScan snakes
  scan.1.foldl (resolveDeath scan.2 gameTime now) (snakes, orbs, rng)

-- ════════════════════════════════════════════════════════
--  Orb pickup  (engine lines 369–384, checkOrbCollisions)
-- ════════════════════════════════════════════════════════

/-- Pickup test of the orb loop: `sqrt(dx*dx+dy*dy) < 15 + orb.size * 3`. -/
def orbHit (head : ℚ × ℚ) (o : Orb ℚ) : Bool :=
  dist2 head (o.x, o.y) < (15 + (o.size : ℚ) * 3) * (15 + (o.size : ℚ) * 3)

/-- Inner orb loop for one snake.  The source iterates the orb array
backwards with `splice`, so every orb present at loop entry is tested exactly
once against the fixed head position; the snake accumulates `value`/score for
each hit and the hit orbs are removed. -/
def eatOrbs (s : Snake ℚ) (orbs : List (Orb ℚ)) : Snake ℚ × List (Orb ℚ) :=
  if s.alive = true ∧ s.segments ≠ [] then
    let eaten := orbs.filter (orbHit (headPos s))
    ({ s with length := s.length + (eaten.map (·.value)).sum
              score := s.score + 5 * eaten.length },
     orbs.filter (fun o => ¬orbHit (headPos s) o))
  else (s, orbs)

/-- `checkOrbCollisions(state, allSnakes)`: snakes are processed in
`allSnakes` order, each against the orbs remaining after its predecessors. -/
def checkOrbCollisions : List (Snake ℚ) → List (Orb ℚ) →
    List (Snake ℚ) × List (Orb ℚ)
  | [], orbs => ([], orbs)
  | s :: rest, orbs =>
    let e := eatOrbs s orbs
    let r := checkOrbCollisions rest e.2
    (e.1 :: r.1, r.2)

-- ════════════════════════════════════════════════════════
--  spawnOrb  (engine lines 500–510)
-- ════════════════════════════════════════════════════════

/-- `spawnOrb()`:
```
const size = 1 + Math.floor(rng.next() * MAX_ORB_SIZE)     // MAX_ORB_SIZE = 3
return {
  id: Math.random().toString(36).substr(2, 9),             // wall-clock random
  x: 50 + rng.next() * (ARENA_WIDTH - 100),                // 2900
  y: 50 + rng.next() * (ARENA_HEIGHT - 100),
  size, value: size * 3, color: randomColor()
}
```
`entropy` models the `Math.random().toString(36).substr(2, 9)` id string,
the one input of this function that does not come from the seeded rng. -/
def spawnOrb (rng : SeededRandom) (entropy : String) : Orb ℚ × SeededRandom :=
  let (r1, rng1) := rng.next
  let size := 1 + (⌊r1 * 3⌋).toNat
  let (rx, rng2) := rng1.next
  let (ry, rng3) := rng2.next
  let (rc, rng4) := rng3.next
  ({ id := entropy
     x := 50 + rx * 2900
     y := 50 + ry * 2900
     size := size
     value := (size : ℚ) * 3
     color := randomColor rc }, rng4)

-- ════════════════════════════════════════════════════════
--  Forfeit handler  (server part_003, socket.on("forfeit"), lines 450–492)
-- ════════════════════════════════════════════════════════

/-- `interface FinalGameState` (types.ts); the JS `Record<string, number>`
maps become association lists. -/
structure FinalGameState where
  matchId : String
  player1 : String
  player2 : String
  winner : Option String
  loser : Option String
  finalScores : List (String × ℚ)
  finalLengths : List (String × ℚ)
  finalKills : List (String × ℕ)
  stakeAmount : String
  duration : ℕ
  matchType : String
deriving DecidableEq, Repr

/-- One entry of the server's `activeGames` map (the fields the forfeit
handler reads). -/
structure ActiveGame where
  state : GameState ℚ
  player1Address : String
  player2Address : String
  intervalRunning : Bool
  startTime : ℕ
  stake : String
deriving DecidableEq

/-- `socket.on("forfeit", ({ matchId, address }) => ...)`:
```
const game = activeGames.get(matchId)
if (!game) return
if (game.interval) { clearInterval(game.interval); game.interval = undefined }
const winner = game.state.player1.address === address
               ? game.state.player2.address : game.state.player1.address
const loser = address
const finalState = { ..., winner, loser, ..., matchType: 'forfeit' }
updateLeaderboard(finalState)
io.to(matchId).emit("game_over", finalState)
activeGames.delete(matchId)
```
Returns the updated `activeGames` map and the list of emitted `game_over`
payloads. -/
def onForfeit (games : List (String × ActiveGame)) (matchId addr : String)
    (now : ℕ) : List (String × ActiveGame) × List FinalGameState :=
  match games.lookup matchId with
  | none => (games, [])
  | some g =>
    let p1 := g.state.player1
    let p2 := g.state.player2
    let winner := if p1.address = addr then p2.address else p1.address
    let fs : FinalGameState :=
      { matchId := matchId
        player1 := p1.address
        player2 := p2.address
        winner := some winner
        loser := some addr
        finalScores := [(p1.address, p1.score), (p2.address, p2.score)]
        finalLengths := [(p1.address, p1.length), (p2.address, p2.length)]
        finalKills := [(p1.address, p1.kills), (p2.address, p2.kills)]
        stakeAmount := g.stake
        duration := now - g.startTime
        matchType := "forfeit" }
    (games.filter (fun p => ¬p.1 = matchId), [fs])

-- ════════════════════════════════════════════════════════
--  Direction update  (engine lines 246–257, middle of updateSnake)
-- ════════════════════════════════════════════════════════

/-- JS truncation toward zero (used by the `%` remainder operator). -/
noncomputable def jsTrunc (x : ℝ) : ℤ := if 0 ≤ x then ⌊x⌋ else ⌈x⌉

/-- JS `%` remainder: `a - m * trunc(a / m)` (sign of the dividend). -/
noncomputable def jsMod (a m : ℝ) : ℝ := a - m * jsTrunc (a / m)

/-- `snake.direction = ((snake.direction % (2π)) + 2π) % (2π)`. -/
noncomputable def wrapAngle (a : ℝ) : ℝ :=
  jsMod (jsMod a (2 * Real.pi) + 2 * Real.pi) (2 * Real.pi)

/-- Closed form of `while (dirDiff > Math.PI) dirDiff -= 2 * Math.PI`:
the loop runs the minimal number `k = ⌈(d − π)/(2π)⌉` of iterations that
brings the value to ≤ π. -/
noncomputable def normLoop1 (d : ℝ) : ℝ :=
  if d > Real.pi then d - 2 * Real.pi * ⌈(d - Real.pi) / (2 * Real.pi)⌉ else d

/-- Closed form of `while (dirDiff < -Math.PI) dirDiff += 2 * Math.PI`. -/
noncomputable def normLoop2 (d : ℝ) : ℝ :=
  if d < -Real.pi then d + 2 * Real.pi * ⌈(-Real.pi - d) / (2 * Real.pi)⌉ else d

/-- The two normalization loops in source order. -/
noncomputable def normDiff (d : ℝ) : ℝ := normLoop2 (normLoop1 d)

/-- Shortest angular distance between two headings. -/
noncomputable def angularDist (a b : ℝ) : ℝ := |normDiff (a - b)|

/-- Direction-update block of `updateSnake` (TURN_SPEED = 3):
```
let dirDiff = snake.targetDirection - snake.direction
while (dirDiff > Math.PI) dirDiff -= 2 * Math.PI
while (dirDiff < -Math.PI) dirDiff += 2 * Math.PI
const maxTurn = TURN_SPEED * dt
if (Math.abs(dirDiff) > maxTurn) {
  snake.direction += Math.sign(dirDiff) * maxTurn
} else {
  snake.direction = snake.targetDirection
}
snake.direction = ((snake.direction % (2π)) + 2π) % (2π)
``` -/
noncomputable def turnStep (direction target dt : ℝ) : ℝ :=
  let dirDiff := normDiff (target - direction)
  let maxTurn := 3 * dt
  let dir' := if |dirDiff| > maxTurn
              then direction + Real.sign dirDiff * maxTurn
              else target
  wrapAngle dir'

-- ════════════════════════════════════════════════════════
--  Head movement and clamping  (engine lines 260–275)
-- ════════════════════════════════════════════════════════

/-- Head-advance block of `updateSnake` (ARENA 3000 × 3000):
```
const newHead = { x: head.x + Math.cos(dir) * speed * dt,
                  y: head.y + Math.sin(dir) * speed * dt }
...soft boundary slowdown only touches snake.speed...
newHead.x = Math.max(20, Math.min(ARENA_WIDTH - 20, newHead.x))
newHead.y = Math.max(20, Math.min(ARENA_HEIGHT - 20, newHead.y))
snake.segments[0] = newHead
``` -/
noncomputable def moveHead (head : ℝ × ℝ) (direction speed dt : ℝ) : ℝ × ℝ :=
  let nx := head.1 + Real.cos direction * speed * dt
  let ny := head.2 + Real.sin direction * speed * dt
  (max 20 (min 2980 nx), max 20 (min 2980 ny))

-- ════════════════════════════════════════════════════════
--  Spawn and respawn  (engine lines 197–223 and 475–494)
-- ════════════════════════════════════════════════════════

/-- Segment construction loop shared by `createSnake` and `respawnSnake`
(INITIAL_LENGTH = 50, SEGMENT_SIZE = 8):
```
for (let i = 0; i < INITIAL_LENGTH; i += SEGMENT_SIZE)
  segments.push({ x: x - Math.cos(dir) * i, y: y - Math.sin(dir) * i })
``` -/
noncomputable def spawnSegments (x y dir : ℝ) (i : ℕ) : List (ℝ × ℝ) :=
  if i < 50 then
    (x - Real.cos dir * i, y - Real.sin dir * i) :: spawnSegments x y dir (i + 8)
  else []
termination_by 50 - i
decreasing_by omega

/-- `respawnSnake(snake)` (engine lines 475–494):
```
const spawnX = 200 + rng.next() * (ARENA_WIDTH - 400)
const spawnY = 200 + rng.next() * (ARENA_HEIGHT - 400)
const spawnDir = rng.next() * 2 * Math.PI
snake.segments = [...loop...]
snake.direction = spawnDir; snake.targetDirection = spawnDir
snake.length = INITIAL_LENGTH; snake.speed = BASE_SPEED * 1.5
snake.alive = true; snake.graceTime = RESPAWN_GRACE_MS; snake.boostTime = 0
``` -/
noncomputable def respawnSnake (s : Snake ℝ) (rng : SeededRandom) :
    Snake ℝ × SeededRandom :=
  let (r1, rng1) := rng.next
  let (r2, rng2) := rng1.next
  let (r3, rng3) := rng2.next
  let spawnX : ℝ := 200 + (r1 : ℝ) * 2600
  let spawnY : ℝ := 200 + (r2 : ℝ) * 2600
  let spawnDir : ℝ := (r3 : ℝ) * (2 * Real.pi)
  ({ s with
      segments := spawnSegments spawnX spawnY spawnDir 0
      direction := spawnDir
      targetDirection := spawnDir
      length := 50
      speed := 225
      alive := true
      graceTime := 2000
      boostTime := 0 }, rng3)

/-- `createSnake(address, x, y, direction, isAI)` (engine lines 197–223). -/
noncomputable def createSnake (address : String) (x y direction : ℝ)
    (isAI : Bool) (rng : SeededRandom) : Snake ℝ × SeededRandom :=
  let rc := rng.next
  ({ address := address
     segments := spawnSegments x y direction 0
     direction := direction
     targetDirection := direction
     length := 50
     speed := if isAI then 120 else 150
     alive := true
     respawnTime := 0
     graceTime := 0
     boostTime := 0
     score := 0
     kills := 0
     color := randomColor rc.1 }, rc.2)

-- ════════════════════════════════════════════════════════
--  Demo entities for concrete evaluations
-- ════════════════════════════════════════════════════════

/-- A snake literal with the stated address, single head segment, length,
score, kills and grace, all other fields at their spawn defaults. -/
def mkSnake (addr : String) (pos : ℚ × ℚ) (len sc : ℚ) (kl : ℕ) (gr : ℚ) :
    Snake ℚ :=
  { address := addr, segments := [pos], direction := 0, targetDirection := 0
    length := len, speed := 150, alive := true, respawnTime := 0
    graceTime := gr, boostTime := 0, score := sc, kills := kl, color := .red }

-- ════════════════════════════════════════════════════════
--  C9 — startBoost frame effect
-- ════════════════════════════════════════════════════════

/-- C9: calling `startBoost` while `boostTime > 0` or while `length < 20`
leaves every field unchanged; otherwise it decreases `length` by exactly
`max 5 (0.05 × length)`, sets `boostTime` to 500 ms, and changes no other
field. -/
theorem startBoost_frame {α : Type} (s : Snake α) :
    (s.boostTime > 0 ∨ s.length < 20 → startBoost s = s) ∧
    (¬(s.boostTime > 0 ∨ s.length < 20) →
      (startBoost s).length = s.length - max 5 (s.length * (5 / 100)) ∧
      (startBoost s).boostTime = 500 ∧
      (startBoost s).address = s.address ∧
      (startBoost s).segments = s.segments ∧
      (startBoost s).direction = s.direction ∧
      (startBoost s).targetDirection = s.targetDirection ∧
      (startBoost s).speed = s.speed ∧
      (startBoost s).alive = s.alive ∧
      (startBoost s).respawnTime = s.respawnTime ∧
      (startBoost s).graceTime = s.graceTime ∧
      (startBoost s).score = s.score ∧
      (startBoost s).kills = s.kills ∧
      (startBoost s).color = s.color) := by
  constructor
  · intro h
    simp [startBoost, h]
  · intro h
    simp [startBoost, h]

/-- C9 witness: a boost at length 100 costs `max 5 5 = 5` and the other
fields survive. -/
theorem startBoost_frame_witness :
    (startBoost (mkSnake "A" (100, 100) 100 0 0 0)).length = 95 ∧
    (startBoost (mkSnake "A" (100, 100) 100 0 0 0)).boostTime = 500 ∧
    (startBoost (mkSnake "A" (100, 100) 100 0 0 0)).score =
      (mkSnake "A" (100, 100) 100 0 0 0).score := by
  have h := (startBoost_frame (mkSnake "A" (100, 100) 100 0 0 0)).2
    (by norm_num [mkSnake])
  refine ⟨?_, h.2.1, h.2.2.2.2.2.2.2.2.2.2.1⟩
  rw [h.1]
  norm_num [mkSnake]

-- ════════════════════════════════════════════════════════
--  C4 — time-limit tie-break order
-- ════════════════════════════════════════════════════════

/-- Effective length used by `determineWinner`:
`state.playerN.alive ? state.playerN.length : 0`. -/
def effLen {α : Type} (s : Snake α) : ℚ := if s.alive then s.length else 0

/-- C4 counterexample: player1 alive with length 120 / score 40, player2
dead with length field 120 / score 55.  The raw `length` fields are tied at
120 and player2 has the greater score, yet the code declares player1 the
winner (a dead participant's length counts as 0), contradicting the claim
that equal lengths are always broken by score. -/
theorem determineWinner_dead_length_cex :
    (mkSnake "A" (100, 100) 120 40 0 0).length =
      ({ mkSnake "B" (200, 200) 120 55 0 0 with alive := false } : Snake ℚ).length ∧
    ({ mkSnake "B" (200, 200) 120 55 0 0 with alive := false } : Snake ℚ).score >
      (mkSnake "A" (100, 100) 120 40 0 0).score ∧
    determineWinner (α := ℚ)
      { player1 := mkSnake "A" (100, 100) 120 40 0 0
        player2 := { mkSnake "B" (200, 200) 120 55 0 0 with alive := false }
        aiSnakes := [], orbs := [], gameTime := 120000, matchEnded := true
        winner := none, tick := 0, lastOrbSpawn := 0
        arenaWidth := 3000, arenaHeight := 3000 } = some "A" ∧
    "A" ≠ "B" := by
  refine ⟨by norm_num [mkSnake], by norm_num [mkSnake], ?_, by decide⟩
  norm_num [determineWinner, mkSnake]

/-- C4 (amended): the tie-break order holds for the *effective* lengths
(`length` if alive, else 0): greater effective length wins, then greater
score, then greater kills, else a draw. -/
theorem determineWinner_tiebreak {α : Type} (st : GameState α) :
    (effLen st.player1 > effLen st.player2 →
      determineWinner st = some st.player1.address) ∧
    (effLen st.player2 > effLen st.player1 →
      determineWinner st = some st.player2.address) ∧
    (effLen st.player1 = effLen st.player2 →
      st.player1.score > st.player2.score →
      determineWinner st = some st.player1.address) ∧
    (effLen st.player1 = effLen st.player2 →
      st.player2.score > st.player1.score →
      determineWinner st = some st.player2.address) ∧
    (effLen st.player1 = effLen st.player2 →
      st.player1.score = st.player2.score →
      st.player1.kills > st.player2.kills →
      determineWinner st = some st.player1.address) ∧
    (effLen st.player1 = effLen st.player2 →
      st.player1.score = st.player2.score →
      st.player2.kills > st.player1.kills →
      determineWinner st = some st.player2.address) ∧
    (effLen st.player1 = effLen st.player2 →
      st.player1.score = st.player2.score →
      st.player1.kills = st.player2.kills →
      determineWinner st = none) := by
  unfold effLen
  refine ⟨?_, ?_, ?_, ?_, ?_, ?_, ?_⟩
  · intro h
    simp only [determineWinner]
    rw [if_pos h]
  · intro h
    simp only [determineWinner]
    rw [if_neg (by linarith), if_pos h]
  · intro h1 h2
    simp only [determineWinner]
    rw [if_neg (by linarith), if_neg (by linarith), if_pos h2]
  · intro h1 h2
    simp only [determineWinner]
    rw [if_neg (by linarith), if_neg (by linarith), if_neg (by linarith),
      if_pos h2]
  · intro h1 h2 h3
    simp only [determineWinner]
    rw [if_neg (by linarith), if_neg (by linarith), if_neg (by linarith),
      if_neg (by linarith), if_pos h3]
  · intro h1 h2 h3
    simp only [determineWinner]
    rw [if_neg (by linarith), if_neg (by linarith), if_neg (by linarith),
      if_neg (by linarith), if_neg (by omega), if_pos h3]
  · intro h1 h2 h3
    simp only [determineWinner]
    rw [if_neg (by linarith), if_neg (by linarith), if_neg (by linarith),
      if_neg (by linarith), if_neg (by omega), if_neg (by omega)]

/-- C4 witness: the spec scenario — lengths tied at 120 (both alive), scores
40 vs 55, arbitrary kill counts 7 vs 2: the score-55 participant wins. -/
theorem determineWinner_tiebreak_witness :
    determineWinner (α := ℚ)
      { player1 := mkSnake "A" (100, 100) 120 40 7 0
        player2 := mkSnake "B" (200, 200) 120 55 2 0
        aiSnakes := [], orbs := [], gameTime := 120000, matchEnded := true
        winner := none, tick := 0, lastOrbSpawn := 0
        arenaWidth := 3000, arenaHeight := 3000 } = some "B" := by
  have h := (determineWinner_tiebreak (α := ℚ)
      { player1 := mkSnake "A" (100, 100) 120 40 7 0
        player2 := mkSnake "B" (200, 200) 120 55 2 0
        aiSnakes := [], orbs := [], gameTime := 120000, matchEnded := true
        winner := none, tick := 0, lastOrbSpawn := 0
        arenaWidth := 3000, arenaHeight := 3000 }).2.2.2.1
    (by norm_num [effLen, mkSnake]) (by norm_num [mkSnake])
  simpa [mkSnake] using h

-- ════════════════════════════════════════════════════════
--  C2 — segment-count reconciliation tolerance
-- ════════════════════════════════════════════════════════

theorem reconcileSegments_eq (L : ℚ) (n : ℕ) :
    reconcileSegments L n =
      if (growLoop n (targetSegments L) : ℤ) > targetSegments L + 2
      then (targetSegments L + 1).toNat else growLoop n (targetSegments L) :=
  rfl

/-- C2 counterexample: a snake of length 190 entering the reconciliation
step with 25 segments (the steady state of length 200, after a boost cost of
10) keeps all 25 segments, while `floor(190 / 8) = 23`: the deviation is +2,
outside the claimed ±1 tolerance. -/
theorem reconcile_not_within_one :
    reconcileSegments 190 25 = 25 ∧ targetSegments 190 = 23 ∧
    ¬((reconcileSegments 190 25 : ℤ) - targetSegments 190 ≤ 1 ∧
      targetSegments 190 - (reconcileSegments 190 25 : ℤ) ≤ 1) := by
  have ht : targetSegments 190 = 23 := by
    unfold targetSegments
    norm_num [Int.floor_eq_iff]
  have hg : growLoop 25 (targetSegments 190) = 25 := by
    have := growLoop_eq_max 25 (targetSegments 190)
    omega
  have hr : reconcileSegments 190 25 = 25 := by
    rw [reconcileSegments_eq, hg, if_neg (by omega)]
  refine ⟨hr, ht, ?_⟩
  omega

/-- C2 (amended): after the reconciliation step a snake with nonnegative
length and at least one segment has a segment count in
`[floor(length/8), floor(length/8) + 2]` — within +2 above the floor value,
never below it — and never less than 1. -/
theorem reconcile_within_two (L : ℚ) (n : ℕ) (h0 : 0 ≤ L) (h1 : 1 ≤ n) :
    targetSegments L ≤ (reconcileSegments L n : ℤ) ∧
    (reconcileSegments L n : ℤ) ≤ targetSegments L + 2 ∧
    1 ≤ reconcileSegments L n := by
  have ht : 0 ≤ targetSegments L := Int.floor_nonneg.mpr (by positivity)
  have hg := growLoop_eq_max n (targetSegments L)
  rw [reconcileSegments_eq]
  split_ifs with hc <;> omega

/-- C2 witness: length 190 with 25 segments lands in `[23, 25]`. -/
theorem reconcile_within_two_witness :
    targetSegments 190 ≤ (reconcileSegments 190 25 : ℤ) ∧
    (reconcileSegments 190 25 : ℤ) ≤ targetSegments 190 + 2 ∧
    1 ≤ reconcileSegments 190 25 :=
  reconcile_within_two 190 25 (by norm_num) (by norm_num)

-- ════════════════════════════════════════════════════════
--  C1 — determinism of the tick processor
-- ════════════════════════════════════════════════════════

/-- C1: the engine is *not* byte-identical across runs.  Two runs with the
same seed and the same inputs differ in the orb `id` fields: `spawnOrb`
draws the id from `Math.random()` and `convertSnakeToOrbs` embeds
`Date.now()` in the ids, both wall-clock sources.  All seeded-rng-derived
fields (position, size, value, color and the rng state itself) do agree. -/
theorem spawnOrb_wallclock_dependent :
    (spawnOrb ⟨1⟩ "run1-id").1 ≠ (spawnOrb ⟨1⟩ "run2-id").1 ∧
    (spawnOrb ⟨1⟩ "run1-id").1.x = (spawnOrb ⟨1⟩ "run2-id").1.x ∧
    (spawnOrb ⟨1⟩ "run1-id").1.y = (spawnOrb ⟨1⟩ "run2-id").1.y ∧
    (spawnOrb ⟨1⟩ "run1-id").1.size = (spawnOrb ⟨1⟩ "run2-id").1.size ∧
    (spawnOrb ⟨1⟩ "run1-id").1.color = (spawnOrb ⟨1⟩ "run2-id").1.color ∧
    (spawnOrb ⟨1⟩ "run1-id").2 = (spawnOrb ⟨1⟩ "run2-id").2 ∧
    (convertSnakeToOrbs (mkSnake "A" (100, 100) 50 0 0 0) ⟨1⟩ 100).1 ≠
      (convertSnakeToOrbs (mkSnake "A" (100, 100) 50 0 0 0) ⟨1⟩ 200).1 := by
  refine ⟨?_, rfl, rfl, rfl, rfl, rfl, ?_⟩
  · intro h
    have h2 := congrArg Orb.id h
    simp [spawnOrb] at h2
  · intro h
    simp [convertSnakeToOrbs, mkSnake, headPos, deathOrbLoop] at h
    exact absurd h (by decide)

-- ════════════════════════════════════════════════════════
--  C3 — forfeit from a non-participant
-- ════════════════════════════════════════════════════════

/-- A concrete running match between "A" and "B" for the forfeit-handler
evaluations. -/
def c3game : ActiveGame :=
  { state := { player1 := mkSnake "A" (750, 1500) 50 0 0 0
               player2 := mkSnake "B" (2250, 1500) 50 0 0 0
               aiSnakes := [], orbs := [], gameTime := 30000
               matchEnded := false, winner := none, tick := 600
               lastOrbSpawn := 0, arenaWidth := 3000, arenaHeight := 3000 }
    player1Address := "A", player2Address := "B"
    intervalRunning := true, startTime := 0, stake := "1000000" }

/-- C3 counterexample: a forfeit for existing match "m1" from address "C",
which is neither participant, is *not* ignored: the match is removed from
`activeGames` (the match ends) and a `game_over` is emitted declaring
player1 ("A") the winner and the outsider "C" the loser. -/
theorem forfeit_nonparticipant_ends_match :
    (onForfeit [("m1", c3game)] "m1" "C" 60000).1 = [] ∧
    (onForfeit [("m1", c3game)] "m1" "C" 60000).2.map (·.winner) = [some "A"] ∧
    (onForfeit [("m1", c3game)] "m1" "C" 60000).2.map (·.loser) = [some "C"] ∧
    c3game.state.player1.address ≠ "C" ∧
    c3game.state.player2.address ≠ "C" := by
  decide

/-- C3 (amended): a forfeit referencing a non-existent match is silently
ignored; a forfeit referencing an existing match is *not* validated against
the participants: it always ends the match (the entry is deleted) and emits
one `game_over` whose winner is player2 exactly when the requesting address
equals player1's address and player1 otherwise — so a non-participant
address ends the match with player1 declared winner. -/
theorem onForfeit_spec (games : List (String × ActiveGame))
    (matchId addr : String) (now : ℕ) :
    (games.lookup matchId = none →
      onForfeit games matchId addr now = (games, [])) ∧
    (∀ g, games.lookup matchId = some g →
      (onForfeit games matchId addr now).1 =
        games.filter (fun p => ¬p.1 = matchId) ∧
      ∃ fs, (onForfeit games matchId addr now).2 = [fs] ∧
        fs.winner = some (if g.state.player1.address = addr
                          then g.state.player2.address
                          else g.state.player1.address) ∧
        fs.loser = some addr ∧
        fs.matchType = "forfeit") := by
  constructor
  · intro h
    unfold onForfeit
    rw [h]
  · intro g h
    unfold onForfeit
    rw [h]
    exact ⟨rfl, _, rfl, rfl, rfl, rfl⟩

/-- C3 witness: with the single active match "m1", a forfeit for the unknown
match "m2" is dropped, and a forfeit for "m1" from participant "B" ends the
match with "A" the winner. -/
theorem onForfeit_spec_witness :
    onForfeit [("m1", c3game)] "m2" "X" 5 = ([("m1", c3game)], []) ∧
    (onForfeit [("m1", c3game)] "m1" "B" 5).1 = [] ∧
    ∃ fs, (onForfeit [("m1", c3game)] "m1" "B" 5).2 = [fs] ∧
      fs.winner = some "A" ∧ fs.loser = some "B" := by
  obtain ⟨h21, fs, hfs, hw, hl, _⟩ :=
    (onForfeit_spec [("m1", c3game)] "m1" "B" 5).2 c3game rfl
  refine ⟨(onForfeit_spec [("m1", c3game)] "m2" "X" 5).1 rfl, ?_, fs, hfs, ?_, hl⟩
  · rw [h21]
    rfl
  · rw [hw]
    rfl

-- ════════════════════════════════════════════════════════
--  Generic list helpers for the fold proofs
-- ════════════════════════════════════════════════════════

theorem foldl_preserves {α β : Type} (f : β → α → β) (P : β → Prop)
    (l : List α) (b : β) (hb : P b)
    (hf : ∀ b a, a ∈ l → P b → P (f b a)) : P (l.foldl f b) := by
  induction l generalizing b with
  | nil => exact hb
  | cons x xs ih =>
    exact ih (f b x) (hf b x (List.mem_cons_self x xs) hb)
      (fun b' a ha hb' => hf b' a (List.mem_cons_of_mem x ha) hb')

theorem mem_pushNew {j x : ℕ} {l : List ℕ} (h : j ∈ pushNew x l) :
    j ∈ l ∨ j = x := by
  unfold pushNew at h
  split_ifs at h with hx
  · exact Or.inl h
  · rcases List.mem_append.mp h with h' | h'
    · exact Or.inl h'
    · simp only [List.mem_singleton] at h'
      exact Or.inr h'

theorem modifyIdx_getElem? {α : Type} (f : α → α) (k i : ℕ) (l : List α) :
    (modifyIdx f k l)[i]? = if i = k then (l[i]?).map f else l[i]? := by
  induction l generalizing k i with
  | nil => simp [modifyIdx]
  | cons x xs ih =>
    cases k with
    | zero =>
      cases i with
      | zero => simp [modifyIdx]
      | succ i => simp [modifyIdx]
    | succ k =>
      cases i with
      | zero => simp [modifyIdx]
      | succ i => simpa [modifyIdx] using ih k i

-- ════════════════════════════════════════════════════════
--  The scan only marks eligible snakes
-- ════════════════════════════════════════════════════════

/-- Every index in the `toKill` component points at an eligible snake. -/
def scanInv (snakes : List (Snake ℚ)) (st : ScanState) : Prop :=
  ∀ j ∈ st.1, ∃ s, snakes[j]? = some s ∧ eligible s

theorem scanDefender_inv (snakes : List (Snake ℚ)) (a : ℕ) (h : ℚ × ℚ)
    (st : ScanState) (d : ℕ) (dfn : Snake ℚ)
    (ha : ∃ sa, snakes[a]? = some sa ∧ eligible sa)
    (hd : snakes[d]? = some dfn)
    (hst : scanInv snakes st) :
    scanInv snakes (scanDefender a h st d dfn) := by
  simp only [scanDefender]
  split_ifs with h1 h2 h3 h4 h5
  · exact hst
  · exact hst
  · intro j hj
    rcases mem_pushNew hj with hj' | rfl
    · rcases mem_pushNew hj' with hj'' | rfl
      · exact hst j hj''
      · exact ha
    · push_neg at h1
      exact ⟨dfn, hd, h1.2⟩
  · exact hst
  · intro j hj
    rcases List.mem_append.mp hj with hj' | hj'
    · exact hst j hj'
    · simp only [List.mem_singleton] at hj'
      subst hj'
      exact ha
  · exact hst

theorem scanAttacker_inv (snakes : List (Snake ℚ)) (st : ScanState) (a : ℕ)
    (atk : Snake ℚ) (ha : snakes[a]? = some atk)
    (hst : scanInv snakes st) :
    scanInv snakes (scanAttacker snakes st a atk) := by
  unfold scanAttacker
  split_ifs with h1
  · apply foldl_preserves _ (scanInv snakes) _ _ hst
    intro st' p hp hst'
    exact scanDefender_inv snakes a (headPos atk) st' p.1 p.2
      ⟨atk, ha, h1⟩ (List.mem_enum_iff_getElem?.mp hp) hst'
  · exact hst

theorem collisionScan_inv (snakes : List (Snake ℚ)) :
    scanInv snakes (collisionScan snakes) := by
  unfold collisionScan
  apply foldl_preserves _ (scanInv snakes)
  · intro j hj
    exact absurd hj (List.not_mem_nil j)
  · intro st p hp hst
    exact scanAttacker_inv snakes st p.1 p.2
      (List.mem_enum_iff_getElem?.mp hp) hst

-- ════════════════════════════════════════════════════════
--  Death resolution preserves per-snake fields
-- ════════════════════════════════════════════════════════

/-- Effect of one death resolution on the snake stored at index `i`: score is
never changed, kills never decrease, and when `i` is not the dying index the
liveness fields are untouched (a killer credit only bumps kills/length). -/
theorem resolveDeath_field (killers : List (ℕ × ℕ)) (gameTime : ℚ) (now : ℕ)
    (acc : List (Snake ℚ) × List (Orb ℚ) × SeededRandom) (dIdx i : ℕ)
    (s' : Snake ℚ) (h : acc.1[i]? = some s') :
    ∃ s'', (resolveDeath killers gameTime now acc dIdx).1[i]? = some s'' ∧
      s''.score = s'.score ∧ s'.kills ≤ s''.kills ∧
      (dIdx ≠ i → s''.alive = s'.alive ∧ s''.graceTime = s'.graceTime ∧
        s''.segments = s'.segments) := by
  cases hdead : acc.1[dIdx]? with
  | none =>
    refine ⟨s', ?_, rfl, le_refl _, fun _ => ⟨rfl, rfl, rfl⟩⟩
    simp only [resolveDeath, hdead]
    exact h
  | some dead =>
    cases hk : killers.lookup dIdx with
    | none =>
      simp only [resolveDeath, hdead, hk]
      rw [modifyIdx_getElem?]
      by_cases hdi : i = dIdx
      · rw [if_pos hdi, h]
        exact ⟨_, rfl, rfl, le_refl _, fun hne => absurd hdi.symm hne⟩
      · rw [if_neg hdi, h]
        exact ⟨s', rfl, rfl, le_refl _, fun _ => ⟨rfl, rfl, rfl⟩⟩
    | some k =>
      simp only [resolveDeath, hdead, hk]
      rw [modifyIdx_getElem?, modifyIdx_getElem?]
      by_cases hdi : i = dIdx
      · rw [if_pos hdi]
        by_cases hki : i = k
        · rw [if_pos hki, h]
          exact ⟨_, rfl, rfl, by simp, fun hne => absurd hdi.symm hne⟩
        · rw [if_neg hki, h]
          exact ⟨_, rfl, rfl, le_refl _, fun hne => absurd hdi.symm hne⟩
      · rw [if_neg hdi]
        by_cases hki : i = k
        · rw [if_pos hki, h]
          exact ⟨_, rfl, rfl, by simp, fun _ => ⟨rfl, rfl, rfl⟩⟩
        · rw [if_neg hki, h]
          exact ⟨s', rfl, rfl, le_refl _, fun _ => ⟨rfl, rfl, rfl⟩⟩

-- ════════════════════════════════════════════════════════
--  C5 — grace immunity
-- ════════════════════════════════════════════════════════

/-- C5: an entity with `graceTime > 0` at scan time is never marked dead by
the Collision & Death Resolver: its index never enters `toKill`, and after
the full resolver pass its `alive` flag (and grace) are unchanged. -/
theorem grace_never_killed (snakes : List (Snake ℚ)) (orbs : List (Orb ℚ))
    (gameTime : ℚ) (rng : SeededRandom) (now : ℕ) (i : ℕ) (s : Snake ℚ)
    (hs : snakes[i]? = some s) (hg : s.graceTime > 0) :
    i ∉ (collisionScan snakes).1 ∧
    ∃ s', (checkSnakeCollisions snakes orbs gameTime rng now).1[i]? = some s' ∧
      s'.alive = s.alive ∧ s'.graceTime = s.graceTime := by
  have hnot : i ∉ (collisionScan snakes).1 := by
    intro hmem
    obtain ⟨s', hs', he⟩ := collisionScan_inv snakes i hmem
    rw [hs] at hs'
    injection hs' with h'
    subst h'
    exact he.2.1 hg
  refine ⟨hnot, ?_⟩
  have hfold := foldl_preserves
    (resolveDeath (collisionScan snakes).2 gameTime now)
    (fun acc => ∃ s', acc.1[i]? = some s' ∧ s'.alive = s.alive ∧
      s'.graceTime = s.graceTime)
    (collisionScan snakes).1 (snakes, orbs, rng) ⟨s, hs, rfl, rfl⟩ ?step
  · exact hfold
  case step =>
    rintro acc dIdx hd ⟨s', h1, h2, h3⟩
    have hne : dIdx ≠ i := fun hEq => hnot (hEq ▸ hd)
    obtain ⟨s'', hh, _, _, hpres⟩ :=
      resolveDeath_field (collisionScan snakes).2 gameTime now acc dIdx i s' h1
    obtain ⟨ha, hgr, _⟩ := hpres hne
    exact ⟨s'', hh, ha.trans h2, hgr.trans h3⟩

/-- C5 witness: two overlapping snakes, one with 1500 ms of grace left — the
grace-protected one (index 0) is not marked and stays alive. -/
theorem grace_never_killed_witness :
    (0 : ℕ) ∉ (collisionScan [mkSnake "A" (100, 100) 50 0 0 1500,
      mkSnake "B" (103, 100) 50 0 0 0]).1 ∧
    ∃ s', (checkSnakeCollisions [mkSnake "A" (100, 100) 50 0 0 1500,
        mkSnake "B" (103, 100) 50 0 0 0] [] 1000 ⟨7⟩ 42).1[0]? = some s' ∧
      s'.alive = (mkSnake "A" (100, 100) 50 0 0 1500).alive ∧
      s'.graceTime = (mkSnake "A" (100, 100) 50 0 0 1500).graceTime :=
  grace_never_killed
    [mkSnake "A" (100, 100) 50 0 0 1500, mkSnake "B" (103, 100) 50 0 0 0]
    [] 1000 ⟨7⟩ 42 0 (mkSnake "A" (100, 100) 50 0 0 1500) rfl (by norm_num [mkSnake])

-- ════════════════════════════════════════════════════════
--  Two-snake head-to-head characterization
-- ════════════════════════════════════════════════════════

theorem dist2_comm (p q : ℚ × ℚ) : dist2 p q = dist2 q p := by
  unfold dist2
  ring

/-- With exactly two eligible snakes whose heads are within the lethal
radius, the pairwise scan marks both (in order) and records no killer. -/
theorem headOn_scan (A B : Snake ℚ) (hA : eligible A) (hB : eligible B)
    (hd : dist2 (headPos B) (headPos A) < 15 * 15) :
    collisionScan [A, B] = ([0, 1], []) := by
  have henum : ([A, B] : List (Snake ℚ)).enum = [(0, A), (1, B)] := rfl
  have h1 : ¬dist2 (headPos B) (headPos A) > 500 * 500 := by
    intro hgt
    norm_num at hd hgt
    linarith
  have hd2 : dist2 (headPos A) (headPos B) < 15 * 15 := by
    rw [dist2_comm]
    exact hd
  have h2 : ¬dist2 (headPos A) (headPos B) > 500 * 500 := by
    rw [dist2_comm]
    exact h1
  simp only [collisionScan, henum, List.foldl_cons, List.foldl_nil,
    scanAttacker, scanDefender, pushNew, hA, hB, hd, hd2, h1, h2]
  norm_num

/-- With exactly two eligible snakes in lethal head range, the full resolver
kills both symmetrically: both are reset to the dead state, no kill credit
is assigned, and the orb list is extended by the conversion of A's body and
then of B's body. -/
theorem twoSnakeHeadOn (A B : Snake ℚ) (orbs : List (Orb ℚ)) (gameTime : ℚ)
    (rng : SeededRandom) (now : ℕ)
    (hA : eligible A) (hB : eligible B)
    (hd : dist2 (headPos B) (headPos A) < 15 * 15) :
    checkSnakeCollisions [A, B] orbs gameTime rng now =
      ([{ A with
            alive := false
            respawnTime := gameTime + 2000
            boostTime := 0
            segments := [] },
        { B with
            alive := false
            respawnTime := gameTime + 2000
            boostTime := 0
            segments := [] }],
       orbs ++ (convertSnakeToOrbs A rng now).1 ++
         (convertSnakeToOrbs B (convertSnakeToOrbs A rng now).2 now).1,
       (convertSnakeToOrbs B (convertSnakeToOrbs A rng now).2 now).2) := by
  unfold checkSnakeCollisions
  rw [headOn_scan A B hA hB hd]
  simp only [List.foldl_cons, List.foldl_nil, resolveDeath, modifyIdx,
    List.getElem?_cons_zero, List.getElem?_cons_succ, List.lookup_nil,
    List.append_assoc]

-- ════════════════════════════════════════════════════════
--  C6 — symmetric head-to-head kill
-- ════════════════════════════════════════════════════════

/-- C6: if two eligible entities' heads are within the lethal radius in one
tick and neither has grace, both are marked dead in that tick, neither kill
counter changes, and both bodies are converted into orb clusters (A's
conversion appended first, then B's, on the shared rng stream). -/
theorem head_to_head_kill (A B : Snake ℚ) (orbs : List (Orb ℚ))
    (gameTime : ℚ) (rng : SeededRandom) (now : ℕ)
    (hA : eligible A) (hB : eligible B)
    (hd : dist2 (headPos B) (headPos A) < 15 * 15) :
    ∃ A' B',
      checkSnakeCollisions [A, B] orbs gameTime rng now =
        ([A', B'],
         orbs ++ (convertSnakeToOrbs A rng now).1 ++
           (convertSnakeToOrbs B (convertSnakeToOrbs A rng now).2 now).1,
         (convertSnakeToOrbs B (convertSnakeToOrbs A rng now).2 now).2) ∧
      A'.alive = false ∧ B'.alive = false ∧
      A'.kills = A.kills ∧ B'.kills = B.kills ∧
      A'.score = A.score ∧ B'.score = B.score ∧
      A'.segments = [] ∧ B'.segments = [] :=
  ⟨_, _, twoSnakeHeadOn A B orbs gameTime rng now hA hB hd,
    rfl, rfl, rfl, rfl, rfl, rfl, rfl, rfl⟩

/-- Concrete pair of overlapping snakes for the head-to-head evaluations. -/
def c6A : Snake ℚ := mkSnake "A" (100, 100) 50 10 1 0

def c6B : Snake ℚ := mkSnake "B" (105, 100) 60 20 2 0

/-- C6 witness: heads 5 apart (dist² = 25 < 225), no grace — both die, kill
counters stay at 1 and 2. -/
theorem head_to_head_kill_witness :
    ∃ A' B',
      checkSnakeCollisions [c6A, c6B] [] 5000 ⟨3⟩ 9 =
        ([A', B'],
         [] ++ (convertSnakeToOrbs c6A ⟨3⟩ 9).1 ++
           (convertSnakeToOrbs c6B (convertSnakeToOrbs c6A ⟨3⟩ 9).2 9).1,
         (convertSnakeToOrbs c6B (convertSnakeToOrbs c6A ⟨3⟩ 9).2 9).2) ∧
      A'.alive = false ∧ B'.alive = false ∧
      A'.kills = c6A.kills ∧ B'.kills = c6B.kills ∧
      A'.score = c6A.score ∧ B'.score = c6B.score ∧
      A'.segments = [] ∧ B'.segments = [] :=
  head_to_head_kill c6A c6B [] 5000 ⟨3⟩ 9
    (by norm_num [eligible, c6A, mkSnake])
    (by norm_num [eligible, c6B, mkSnake])
    (by norm_num [dist2, headPos, c6A, c6B, mkSnake])

-- ════════════════════════════════════════════════════════
--  C10 — score/kills monotonicity and the death–respawn cycle
-- ════════════════════════════════════════════════════════

/-- Concrete snakes for the death evaluation. -/
def c10A : Snake ℚ := mkSnake "A" (100, 100) 120 40 3 0

def c10B : Snake ℚ := mkSnake "B" (105, 100) 80 10 0 0

/-- C10 counterexample: death does *not* reset `length`.  After a
head-to-head death, snake 0 is dead (`alive = false`, empty segments,
`boostTime = 0`) yet its `length` field still holds the pre-death 120 — only
a later respawn resets it to the initial 50. -/
theorem death_does_not_reset_length :
    ((checkSnakeCollisions [c10A, c10B] [] 60000 ⟨5⟩ 11).1[0]?).map (·.alive) =
      some false ∧
    ((checkSnakeCollisions [c10A, c10B] [] 60000 ⟨5⟩ 11).1[0]?).map (·.length) =
      some 120 ∧
    c10A.length = 120 ∧ (120 : ℚ) ≠ 50 := by
  rw [twoSnakeHeadOn c10A c10B [] 60000 ⟨5⟩ 11
    (by norm_num [eligible, c10A, mkSnake])
    (by norm_num [eligible, c10B, mkSnake])
    (by norm_num [dist2, headPos, c10A, c10B, mkSnake])]
  exact ⟨rfl, rfl, rfl, by norm_num⟩

theorem eatOrbs_mono (s : Snake ℚ) (orbs : List (Orb ℚ)) :
    s.score ≤ (eatOrbs s orbs).1.score ∧ (eatOrbs s orbs).1.kills = s.kills := by
  unfold eatOrbs
  split_ifs with h
  · constructor
    · show s.score ≤ s.score + 5 * ((orbs.filter (orbHit (headPos s))).length : ℚ)
      have h0 : (0 : ℚ) ≤ 5 * ((orbs.filter (orbHit (headPos s))).length : ℚ) := by
        positivity
      linarith
    · rfl
  · exact ⟨le_refl _, rfl⟩

theorem checkOrbCollisions_mono (snakes : List (Snake ℚ)) (orbs : List (Orb ℚ))
    (i : ℕ) (s : Snake ℚ) (hs : snakes[i]? = some s) :
    ∃ s', (checkOrbCollisions snakes orbs).1[i]? = some s' ∧
      s.score ≤ s'.score ∧ s'.kills = s.kills := by
  induction snakes generalizing orbs i with
  | nil => simp at hs
  | cons x xs ih =>
    cases i with
    | zero =>
      rw [List.getElem?_cons_zero] at hs
      injection hs with h'
      subst h'
      exact ⟨(eatOrbs x orbs).1, by simp [checkOrbCollisions],
        (eatOrbs_mono x orbs).1, (eatOrbs_mono x orbs).2⟩
    | succ i =>
      rw [List.getElem?_cons_succ] at hs
      obtain ⟨s', h1, h2, h3⟩ := ih (eatOrbs x orbs).2 i hs
      exact ⟨s', by simpa [checkOrbCollisions] using h1, h2, h3⟩

theorem checkSnakeCollisions_mono (snakes : List (Snake ℚ))
    (orbs : List (Orb ℚ)) (gameTime : ℚ) (rng : SeededRandom) (now : ℕ)
    (i : ℕ) (s : Snake ℚ) (hs : snakes[i]? = some s) :
    ∃ s', (checkSnakeCollisions snakes orbs gameTime rng now).1[i]? = some s' ∧
      s'.score = s.score ∧ s.kills ≤ s'.kills := by
  have hfold := foldl_preserves
    (resolveDeath (collisionScan snakes).2 gameTime now)
    (fun acc => ∃ s', acc.1[i]? = some s' ∧ s'.score = s.score ∧
      s.kills ≤ s'.kills)
    (collisionScan snakes).1 (snakes, orbs, rng) ⟨s, hs, rfl, le_refl _⟩ ?step
  · exact hfold
  case step =>
    rintro acc dIdx _ ⟨s', h1, h2, h3⟩
    obtain ⟨s'', hh, hscore, hkills, _⟩ :=
      resolveDeath_field (collisionScan snakes).2 gameTime now acc dIdx i s' h1
    exact ⟨s'', hh, hscore.trans h2, h3.trans hkills⟩

/-- C10 (amended): `score` and `kills` are non-decreasing through every
score/kill-touching phase of a tick — collision resolution keeps score and
never decreases kills, orb pickup keeps kills and never decreases score —
and both death (see `resolveDeath_field`) and respawn preserve the
accumulated score and kills; death resets `segments`, `boostTime` and
`alive` but **not** `length`, which only respawn resets. -/
theorem score_kills_monotone :
    (∀ (snakes : List (Snake ℚ)) (orbs : List (Orb ℚ)) (gameTime : ℚ)
        (rng : SeededRandom) (now : ℕ) (i : ℕ) (s : Snake ℚ),
      snakes[i]? = some s →
      ∃ s', (checkSnakeCollisions snakes orbs gameTime rng now).1[i]? =
          some s' ∧ s'.score = s.score ∧ s.kills ≤ s'.kills) ∧
    (∀ (snakes : List (Snake ℚ)) (orbs : List (Orb ℚ)) (i : ℕ) (s : Snake ℚ),
      snakes[i]? = some s →
      ∃ s', (checkOrbCollisions snakes orbs).1[i]? = some s' ∧
        s.score ≤ s'.score ∧ s'.kills = s.kills) ∧
    (∀ (s : Snake ℝ) (rng : SeededRandom),
      (respawnSnake s rng).1.score = s.score ∧
      (respawnSnake s rng).1.kills = s.kills ∧
      (respawnSnake s rng).1.length = 50 ∧
      (respawnSnake s rng).1.alive = true) ∧
    (∀ s : Snake ℚ,
      (startBoost s).score = s.score ∧ (startBoost s).kills = s.kills) := by
  refine ⟨checkSnakeCollisions_mono, checkOrbCollisions_mono,
    fun s rng => ⟨rfl, rfl, rfl, rfl⟩, fun s => ?_⟩
  unfold startBoost
  split_ifs <;> exact ⟨rfl, rfl⟩

/-- C10 witness: concrete instantiations of the monotonicity statements. -/
theorem score_kills_monotone_witness :
    (∃ s', (checkSnakeCollisions [c10A, c10B] [] 60000 ⟨5⟩ 11).1[0]? =
        some s' ∧ s'.score = c10A.score ∧ c10A.kills ≤ s'.kills) ∧
    (∃ s', (checkOrbCollisions [c10A] []).1[0]? = some s' ∧
      c10A.score ≤ s'.score ∧ s'.kills = c10A.kills) :=
  ⟨score_kills_monotone.1 [c10A, c10B] [] 60000 ⟨5⟩ 11 0 c10A rfl,
   score_kills_monotone.2.1 [c10A] [] 0 c10A rfl⟩

-- ════════════════════════════════════════════════════════
--  C7 — angle normalization facts
-- ════════════════════════════════════════════════════════

theorem normLoop1_exists (d : ℝ) :
    ∃ k : ℤ, normLoop1 d = d + 2 * Real.pi * k := by
  unfold normLoop1
  split_ifs with h
  · exact ⟨-⌈(d - Real.pi) / (2 * Real.pi)⌉, by push_cast; ring⟩
  · exact ⟨0, by simp⟩

theorem normLoop1_le (d : ℝ) : normLoop1 d ≤ Real.pi := by
  unfold normLoop1
  split_ifs with h
  · have hc := Int.le_ceil ((d - Real.pi) / (2 * Real.pi))
    have h2 : (0 : ℝ) < 2 * Real.pi := Real.two_pi_pos
    have h3 := (div_le_iff₀ h2).mp hc
    linarith
  · linarith [not_lt.mp h]

theorem normLoop2_exists (d : ℝ) :
    ∃ k : ℤ, normLoop2 d = d + 2 * Real.pi * k := by
  unfold normLoop2
  split_ifs with h
  · exact ⟨⌈(-Real.pi - d) / (2 * Real.pi)⌉, by ring⟩
  · exact ⟨0, by simp⟩

theorem normDiff_exists (d : ℝ) :
    ∃ k : ℤ, normDiff d = d + 2 * Real.pi * k := by
  obtain ⟨k1, h1⟩ := normLoop1_exists d
  obtain ⟨k2, h2⟩ := normLoop2_exists (normLoop1 d)
  refine ⟨k1 + k2, ?_⟩
  unfold normDiff
  rw [h2, h1]
  push_cast
  ring

theorem normDiff_bounds (d : ℝ) :
    -Real.pi ≤ normDiff d ∧ normDiff d ≤ Real.pi := by
  have hx_le : normLoop1 d ≤ Real.pi := normLoop1_le d
  have h2 : (0 : ℝ) < 2 * Real.pi := Real.two_pi_pos
  unfold normDiff normLoop2
  split_ifs with h
  · have hc := Int.le_ceil ((-Real.pi - normLoop1 d) / (2 * Real.pi))
    have hc2 := Int.ceil_lt_add_one ((-Real.pi - normLoop1 d) / (2 * Real.pi))
    have e1 : 2 * Real.pi * ((-Real.pi - normLoop1 d) / (2 * Real.pi)) =
        -Real.pi - normLoop1 d := by
      field_simp
    constructor
    · have h3 := mul_le_mul_of_nonneg_left hc h2.le
      rw [e1] at h3
      linarith
    · have h4 := (mul_lt_mul_left h2).mpr hc2
      have h5 : 2 * Real.pi * ((-Real.pi - normLoop1 d) / (2 * Real.pi) + 1) =
          -Real.pi - normLoop1 d + 2 * Real.pi := by
        rw [mul_add, e1]
        ring
      rw [h5] at h4
      linarith
  · exact ⟨not_lt.mp h, hx_le⟩

/-- A value congruent to `d` modulo 2π and lying in `[-π, π]` has the same
absolute value as `normDiff d` (the endpoints ±π coincide in absolute
value). -/
theorem abs_normDiff_eq (d x : ℝ) (hx1 : -Real.pi ≤ x) (hx2 : x ≤ Real.pi)
    (hc : ∃ k : ℤ, d = x + 2 * Real.pi * k) : |normDiff d| = |x| := by
  obtain ⟨k, hk⟩ := hc
  obtain ⟨k', hk'⟩ := normDiff_exists d
  obtain ⟨h1, h2⟩ := normDiff_bounds d
  have hpi := Real.pi_pos
  have he : normDiff d = x + 2 * Real.pi * ((k + k' : ℤ) : ℝ) := by
    rw [hk', hk]
    push_cast
    ring
  have habs1 : |normDiff d| ≤ Real.pi := abs_le.mpr ⟨h1, h2⟩
  have habs2 : |x| ≤ Real.pi := abs_le.mpr ⟨hx1, hx2⟩
  have hdiff : normDiff d - x = 2 * Real.pi * ((k + k' : ℤ) : ℝ) := by
    rw [he]
    ring
  have hbound : 2 * Real.pi * |((k + k' : ℤ) : ℝ)| ≤ 2 * Real.pi := by
    have htri : |normDiff d - x| ≤ |normDiff d| + |x| := abs_sub _ _
    rw [hdiff, abs_mul, abs_of_pos Real.two_pi_pos] at htri
    linarith
  have hK : |(k + k' : ℤ)| ≤ 1 := by
    have h6 := (mul_le_iff_le_one_right Real.two_pi_pos).mp hbound
    rw [← Int.cast_abs] at h6
    exact_mod_cast h6
  have hcase : k + k' = -1 ∨ k + k' = 0 ∨ k + k' = 1 := by
    have h7 := abs_le.mp hK
    omega
  rcases hcase with h | h | h
  · rw [h] at he
    push_cast at he
    have hx : x = Real.pi := by linarith
    rw [hx] at he ⊢
    rw [he]
    rw [abs_of_nonpos (by linarith), abs_of_nonneg hpi.le]
    ring
  · rw [h] at he
    push_cast at he
    rw [he]
    ring_nf
  · rw [h] at he
    push_cast at he
    have hx : x = -Real.pi := by linarith
    rw [hx] at he ⊢
    rw [he]
    rw [abs_of_nonneg (by linarith), abs_of_nonpos (by linarith)]
    ring

theorem wrapAngle_exists (a : ℝ) :
    ∃ k : ℤ, wrapAngle a = a + 2 * Real.pi * k := by
  refine ⟨1 - jsTrunc (a / (2 * Real.pi)) -
    jsTrunc ((jsMod a (2 * Real.pi) + 2 * Real.pi) / (2 * Real.pi)), ?_⟩
  unfold wrapAngle
  conv_lhs => rw [jsMod]
  rw [jsMod]
  push_cast
  ring

/-- C7: in one direction update the heading moves by at most
`TURN_SPEED × dt = 3 dt` in shortest angular distance, and whenever the
remaining angular difference is within the per-step bound the heading lands
exactly on `targetDirection` (angular distance 0 after wrapping). -/
theorem turn_bound (direction target dt : ℝ) (hdt : 0 ≤ dt) :
    angularDist (turnStep direction target dt) direction ≤ 3 * dt ∧
    (|normDiff (target - direction)| ≤ 3 * dt →
      angularDist (turnStep direction target dt) target = 0) := by
  have hpi := Real.pi_pos
  obtain ⟨hb1, hb2⟩ := normDiff_bounds (target - direction)
  by_cases h : |normDiff (target - direction)| > 3 * dt
  · have hstep : turnStep direction target dt =
        wrapAngle (direction +
          Real.sign (normDiff (target - direction)) * (3 * dt)) := by
      simp only [turnStep]
      rw [if_pos h]
    have hD0 : normDiff (target - direction) ≠ 0 := by
      intro h0
      rw [h0] at h
      simp at h
      linarith
    have habs : |Real.sign (normDiff (target - direction)) * (3 * dt)| =
        3 * dt := by
      rcases lt_trichotomy (normDiff (target - direction)) 0 with hlt | heq | hgt
      · rw [Real.sign_of_neg hlt, neg_one_mul, abs_neg,
          abs_of_nonneg (by linarith)]
      · exact absurd heq hD0
      · rw [Real.sign_of_pos hgt, one_mul, abs_of_nonneg (by linarith)]
    have hlt_pi : 3 * dt < Real.pi := by
      have hDpi : |normDiff (target - direction)| ≤ Real.pi :=
        abs_le.mpr ⟨hb1, hb2⟩
      linarith
    have hxpi : |Real.sign (normDiff (target - direction)) * (3 * dt)| ≤
        Real.pi := by
      rw [habs]
      linarith
    constructor
    · unfold angularDist
      rw [hstep]
      obtain ⟨k, hk⟩ := wrapAngle_exists
        (direction + Real.sign (normDiff (target - direction)) * (3 * dt))
      rw [abs_normDiff_eq
        (wrapAngle (direction +
          Real.sign (normDiff (target - direction)) * (3 * dt)) - direction)
        (Real.sign (normDiff (target - direction)) * (3 * dt))
        (abs_le.mp hxpi).1 (abs_le.mp hxpi).2
        ⟨k, by rw [hk]; ring⟩]
      rw [habs]
    · intro hle
      exact absurd hle (not_le.mpr h)
  · push_neg at h
    have hstep : turnStep direction target dt = wrapAngle target := by
      simp only [turnStep]
      rw [if_neg (not_lt.mpr h)]
    obtain ⟨k, hk⟩ := wrapAngle_exists target
    obtain ⟨k0, hk0⟩ := normDiff_exists (target - direction)
    constructor
    · unfold angularDist
      rw [hstep]
      have harg : wrapAngle target - direction =
          normDiff (target - direction) + 2 * Real.pi * ((k - k0 : ℤ) : ℝ) := by
        rw [hk]
        push_cast
        linear_combination -hk0
      rw [abs_normDiff_eq (wrapAngle target - direction)
        (normDiff (target - direction)) hb1 hb2 ⟨k - k0, harg⟩]
      exact h
    · intro _
      unfold angularDist
      rw [hstep]
      have harg : wrapAngle target - target = 0 + 2 * Real.pi * (k : ℝ) := by
        rw [hk]
        ring
      rw [abs_normDiff_eq (wrapAngle target - target) 0 (by linarith)
        (by linarith) ⟨k, harg⟩]
      simp

/-- C7 witness: from heading 0 toward target 1 with `dt = 1` the turn is
bounded by 3 and, since `|1| ≤ 3`, the heading reaches the target exactly. -/
theorem turn_bound_witness :
    angularDist (turnStep 0 1 1) 0 ≤ 3 * 1 ∧
    (|normDiff (1 - 0)| ≤ 3 * 1 → angularDist (turnStep 0 1 1) 1 = 0) :=
  turn_bound 0 1 1 (by norm_num)

-- ════════════════════════════════════════════════════════
--  C8 — arena containment of the head
-- ════════════════════════════════════════════════════════

theorem spawnSegments_zero (x y dir : ℝ) :
    ∃ rest, spawnSegments x y dir 0 = (x, y) :: rest := by
  refine ⟨spawnSegments x y dir 8, ?_⟩
  rw [spawnSegments, if_pos (by norm_num)]
  norm_num

/-- C8: every operation that writes a head position keeps it inside
`[20, 2980] × [20, 2980]` on the 3000 × 3000 arena: the movement clamp does
so for *all* inputs, a respawned head lands in `[200, 2800]²`, and an
initially created snake's head is exactly the requested spawn point (the
engine passes (750, 1500), (2250, 1500) and `200 + rng·2600` values, all in
range). -/
theorem head_containment :
    (∀ (head : ℝ × ℝ) (direction speed dt : ℝ),
      20 ≤ (moveHead head direction speed dt).1 ∧
      (moveHead head direction speed dt).1 ≤ 2980 ∧
      20 ≤ (moveHead head direction speed dt).2 ∧
      (moveHead head direction speed dt).2 ≤ 2980) ∧
    (∀ (s : Snake ℝ) (rng : SeededRandom),
      ∃ p rest, (respawnSnake s rng).1.segments = p :: rest ∧
        20 ≤ p.1 ∧ p.1 ≤ 2980 ∧ 20 ≤ p.2 ∧ p.2 ≤ 2980) ∧
    (∀ (addr : String) (x y direction : ℝ) (isAI : Bool) (rng : SeededRandom),
      20 ≤ x → x ≤ 2980 → 20 ≤ y → y ≤ 2980 →
      ∃ rest, (createSnake addr x y direction isAI rng).1.segments =
        (x, y) :: rest ∧ 20 ≤ x ∧ x ≤ 2980 ∧ 20 ≤ y ∧ y ≤ 2980) := by
  refine ⟨fun head direction speed dt => ⟨?_, ?_, ?_, ?_⟩,
    fun s rng => ?_, fun addr x y direction isAI rng hx1 hx2 hy1 hy2 => ?_⟩
  · exact le_max_left _ _
  · exact max_le (by norm_num) (min_le_left _ _)
  · exact le_max_left _ _
  · exact max_le (by norm_num) (min_le_left _ _)
  · obtain ⟨rest, hrest⟩ := spawnSegments_zero
      (200 + (rng.next.1 : ℝ) * 2600)
      (200 + (rng.next.2.next.1 : ℝ) * 2600)
      ((rng.next.2.next.2.next.1 : ℝ) * (2 * Real.pi))
    have e1 : (0 : ℝ) ≤ (rng.next.1 : ℝ) := by
      exact_mod_cast SeededRandom.next_nonneg rng
    have e2 : (rng.next.1 : ℝ) < 1 := by
      exact_mod_cast SeededRandom.next_lt_one rng
    have e3 : (0 : ℝ) ≤ (rng.next.2.next.1 : ℝ) := by
      exact_mod_cast SeededRandom.next_nonneg rng.next.2
    have e4 : (rng.next.2.next.1 : ℝ) < 1 := by
      exact_mod_cast SeededRandom.next_lt_one rng.next.2
    refine ⟨(200 + (rng.next.1 : ℝ) * 2600,
      200 + (rng.next.2.next.1 : ℝ) * 2600), rest, hrest, ?_, ?_, ?_, ?_⟩
    · simp only []
      linarith
    · simp only []
      linarith
    · simp only []
      linarith
    · simp only []
      linarith
  · obtain ⟨rest, hrest⟩ := spawnSegments_zero x y direction
    exact ⟨rest, hrest, hx1, hx2, hy1, hy2⟩

/-- A concrete real-world snake for the respawn instantiation. -/
noncomputable def demoRealSnake : Snake ℝ :=
  { address := "A", segments := [(100, 100)], direction := 0
    targetDirection := 0, length := 50, speed := 150, alive := false
    respawnTime := 3000, graceTime := 0, boostTime := 0, score := 10
    kills := 1, color := .red }

/-- C8 witness: the clamp at a concrete input, a concrete respawn, and the
engine's player-1 spawn point (750, 1500). -/
theorem head_containment_witness :
    (20 ≤ (moveHead (100, 100) (1 / 2) 150 (1 / 20)).1 ∧
      (moveHead (100, 100) (1 / 2) 150 (1 / 20)).1 ≤ 2980 ∧
      20 ≤ (moveHead (100, 100) (1 / 2) 150 (1 / 20)).2 ∧
      (moveHead (100, 100) (1 / 2) 150 (1 / 20)).2 ≤ 2980) ∧
    (∃ p rest, (respawnSnake demoRealSnake ⟨1⟩).1.segments = p :: rest ∧
      20 ≤ p.1 ∧ p.1 ≤ 2980 ∧ 20 ≤ p.2 ∧ p.2 ≤ 2980) ∧
    (∃ rest, (createSnake "A" 750 1500 0 false ⟨1⟩).1.segments =
      (750, 1500) :: rest ∧ (20 : ℝ) ≤ 750 ∧ (750 : ℝ) ≤ 2980 ∧
      (20 : ℝ) ≤ 1500 ∧ (1500 : ℝ) ≤ 2980) :=
  ⟨head_containment.1 (100, 100) (1 / 2) 150 (1 / 20),
   head_containment.2.1 demoRealSnake ⟨1⟩,
   head_containment.2.2 "A" 750 1500 0 false ⟨1⟩
     (by norm_num) (by norm_num) (by norm_num) (by norm_num)⟩
